import Mathlib

/-!
Shallow embedding of the `cross-storage` repository: a hub document that owns
a shared `localStorage` and serves permissioned requests from client documents
over `postMessage`, plus the client that performs the handshake, correlated
requests and change-notification dispatch.

Hub code is embedded from `packages/cross-storage-hub/src` (class
`CrossStorageHub` and the module-level storage helpers); the client from the
`CrossStorageClient` class.  Platform collaborators (the storage engine, the
`postMessage` transport, DOM element lookup, timers, `new URL(url).origin`,
the uuid generator) are modelled explicitly: state is passed around, every
`postMessage` call becomes an element of an output list, every promise
settlement or timer action becomes an explicit effect value.
-/

namespace CrossStorage

/-- The five actions of the protocol, from `CrossStorageAction` in `types.ts`. -/
inductive CrossStorageAction
  | set
  | get
  | del
  | getKeys
  | clear
deriving DecidableEq, Repr

/-- The wire name of an action, i.e. the enum's string value in `types.ts`. -/
def actionName : CrossStorageAction → String
  | .set => "set"
  | .get => "get"
  | .del => "del"
  | .getKeys => "getKeys"
  | .clear => "clear"

/-- A permission rule's origin matcher: `RegExp | string` in the source.  A
regular expression is modelled by its `test` function on origin strings. -/
inductive OriginMatcher
  | exact (s : String)
  | pattern (test : String → Bool)

/-- A permission rule's allow set: the literal `"*"` or a list of actions. -/
inductive AllowSpec
  | star
  | list (actions : List CrossStorageAction)

/-- One entry of the hub's access-control list (`CrossStoragePermission`). -/
structure CrossStoragePermission where
  origin : OriginMatcher
  allow : AllowSpec

/-- Whether a matcher accepts an origin: string equality for a string entry,
`entry.origin.test(origin)` for a pattern, as in `_permitted`. -/
def matchesOrigin : OriginMatcher → String → Bool
  | .exact s, origin => origin == s
  | .pattern test, origin => test origin

/-- Whether an allow set grants an action: `allow === '*'` or
`allow.includes(method)`, as in `_permitted`. -/
def allowsAction : AllowSpec → CrossStorageAction → Bool
  | .star, _ => true
  | .list actions, method => actions.contains method

/-- The body of the arrow function `_permitted` passes to
`this.permissions.some`: reject on origin mismatch, otherwise consult the
entry's allow set. -/
def permissionEntryGrants (origin : String) (method : CrossStorageAction)
    (entry : CrossStoragePermission) : Bool :=
  if !matchesOrigin entry.origin origin then false
  else allowsAction entry.allow method

/-- `CrossStorageHub._permitted`: `this.permissions.some(entry => ...)`. -/
def permitted (permissions : List CrossStoragePermission) (origin : String)
    (method : CrossStorageAction) : Bool :=
  permissions.any (permissionEntryGrants origin method)

/-- Modelled from the spec: strict first-match-wins permission evaluation, in
which the first rule whose origin matcher matches the sender origin alone
determines the outcome.  This definition follows the spec's words and exists
to be compared with `permitted`, the evaluation the source actually performs. -/
def permittedFirstMatch (permissions : List CrossStoragePermission)
    (origin : String) (method : CrossStorageAction) : Bool :=
  match permissions with
  | [] => false
  | entry :: rest =>
    if matchesOrigin entry.origin origin then allowsAction entry.allow method
    else permittedFirstMatch rest origin method

/-- The hub's `watch` option: `string[] | boolean` in `types.ts`. -/
inductive WatchSpec
  | flag (b : Bool)
  | keys (ks : List String)
deriving DecidableEq, Repr

/-- JavaScript truthiness of the optional `keys` argument of `_init`
(`if (keys) { ... }`): `undefined` and `false` are falsy; any array,
including the empty array, is truthy. -/
def watchTruthy : Option WatchSpec → Bool
  | none => false
  | some (.flag b) => b
  | some (.keys _) => true

/-! ### The storage collaborator

`window.localStorage` is an external collaborator (an ordered string-to-string
map).  It is modelled as an association list in key insertion order:
`setItem` overwrites in place or appends, `removeItem` deletes the key's
entry, `key(i)` enumeration is list order. -/

/-- The storage engine's state: entries in insertion order, keys distinct in
any state reachable from `[]` through the operations below. -/
def Storage := List (String × String)

/-- `storage.getItem(key)`: the stored value, or `none` for JavaScript
`null`. -/
def getItem (st : Storage) (k : String) : Option String :=
  match st with
  | [] => none
  | (k', v) :: rest => if k' == k then some v else getItem rest k

/-- `storage.setItem(key, value)`: overwrite the existing entry in place, or
append a new one. -/
def setItem (st : Storage) (k v : String) : Storage :=
  match st with
  | [] => [(k, v)]
  | (k', v') :: rest => if k' == k then (k, v) :: rest else (k', v') :: setItem rest k v

/-- `storage.removeItem(key)`. -/
def removeItem (st : Storage) (k : String) : Storage :=
  match st with
  | [] => []
  | (k', v') :: rest => if k' == k then removeItem rest k else (k', v') :: removeItem rest k

/-- The keys of the store in enumeration order, i.e. `storage.key(i)` for
`0 ≤ i < storage.length` as collected by the hub's `getKeys` helper. -/
def storageKeys (st : Storage) : List String :=
  st.map (fun p => p.1)

theorem getItem_setItem_self (st : Storage) (k v : String) :
    getItem (setItem st k v) k = some v := by
  induction st with
  | nil => simp [setItem, getItem]
  | cons hd tl ih =>
    obtain ⟨k', v'⟩ := hd
    by_cases h : k' == k
    · simp [setItem, getItem, h]
    · simp [setItem, getItem, h, ih]

theorem getItem_removeItem_self (st : Storage) (k : String) :
    getItem (removeItem st k) k = none := by
  induction st with
  | nil => simp [removeItem, getItem]
  | cons hd tl ih =>
    obtain ⟨k', v'⟩ := hd
    by_cases h : k' == k
    · simp [removeItem, h, ih]
    · simp [removeItem, getItem, h, ih]

/-! ### Hub request execution

The module-level helpers `set`, `get`, `del`, `clear`, `getKeys` at the bottom
of the hub source, and the request shapes of `types.ts`. -/

/-- A request's `key` field for `get`/`del`: one key or an array of keys
(`Array.isArray(key)` distinguishes the two in the source). -/
inductive KeyArg
  | one (k : String)
  | many (ks : List String)
deriving DecidableEq, Repr

/-- A response's `result` field: absent (`undefined`), JSON `null`, a single
string-or-null value, a key-to-value-or-null record, or an array of keys. -/
inductive ResultVal
  | undef
  | null
  | single (v : Option String)
  | multi (entries : List (String × Option String))
  | keys (ks : List String)
deriving DecidableEq, Repr

/-- The hub helper `get`: `getItem` for a single key, a `reduce` into a
key-to-value record for an array of keys. -/
def hubGet (st : Storage) : KeyArg → ResultVal
  | .one k => .single (getItem st k)
  | .many ks => .multi (ks.map (fun k => (k, getItem st k)))

/-- The hub helper `del`: `removeItem` for a single key, `forEach removeItem`
for an array of keys. -/
def hubDel (st : Storage) : KeyArg → Storage
  | .one k => removeItem st k
  | .many ks => ks.foldl removeItem st

/-- A parsed inbound request (valid JSON with truthy `id` and `method`).
The first five constructors carry the payloads of `CrossStorageRequest` in
`types.ts`; `runknown` is a request whose `method` string is none of the five
members of `allowedMethods`. -/
inductive HubRequestData
  | rset (id key value : String)
  | rget (id : String) (key : KeyArg)
  | rdel (id : String) (key : KeyArg)
  | rgetKeys (id : String)
  | rclear (id : String)
  | runknown (id method : String)
deriving DecidableEq, Repr

/-- The request's `id` field. -/
def reqId : HubRequestData → String
  | .rset id _ _ => id
  | .rget id _ => id
  | .rdel id _ => id
  | .rgetKeys id => id
  | .rclear id => id
  | .runknown id _ => id

/-- The request's raw `method` string. -/
def reqMethodName : HubRequestData → String
  | .rset _ _ _ => "set"
  | .rget _ _ => "get"
  | .rdel _ _ => "del"
  | .rgetKeys _ => "getKeys"
  | .rclear _ => "clear"
  | .runknown _ method => method

/-- `allowedMethods.has(request.method)`, returning the recognized action. -/
def requestAction : HubRequestData → Option CrossStorageAction
  | .rset _ _ _ => some .set
  | .rget _ _ => some .get
  | .rdel _ _ => some .del
  | .rgetKeys _ => some .getKeys
  | .rclear _ => some .clear
  | .runknown _ _ => none

/-- The `switch (method)` of `_onListener`: execute the storage operation,
returning the new storage and the `result` value. -/
def executeRequest (st : Storage) : HubRequestData → Storage × ResultVal
  | .rset _ key value => (setItem st key value, .undef)
  | .rget _ key => (st, hubGet st key)
  | .rdel _ key => (hubDel st key, .undef)
  | .rgetKeys _ => (st, .keys (storageKeys st))
  | .rclear _ => ([], .undef)
  | .runknown _ _ => (st, .undef)

/-! ### Hub messaging -/

/-- The window a `postMessage` call addresses.  Every hub emission in the
source is a `window.parent.postMessage` call; `source` exists to express that
the hub never posts to the triggering message's source window. -/
inductive Dest
  | parent
  | source
deriving DecidableEq, Repr

/-- The payload of an outbound hub message: a control frame
(`cross-storage:ready`, `cross-storage:unavailable`, or
`cross-storage:change:<key>` with `none` encoding the `*` wildcard), or a
JSON-encoded response. -/
inductive HubOutData
  | ready
  | unavailable
  | change (key : Option String)
  | response (id : String) (method : String) (error : Option String) (result : ResultVal)
deriving DecidableEq, Repr

/-- One `postMessage` call made by the hub. -/
structure PostedMessage where
  dest : Dest
  data : HubOutData
  targetOrigin : String
deriving DecidableEq, Repr

/-- The payload of an inbound hub message: the poll frame, the ready frame
(observed when the hub document is viewed directly), a parseable request with
truthy `id` and `method`, or anything that fails `JSON.parse` or lacks
`id`/`method`. -/
inductive HubInData
  | poll
  | ready
  | request (r : HubRequestData)
  | malformed
deriving DecidableEq, Repr

/-- An inbound `MessageEvent` as the hub sees it: the transport-reported
sender origin and the textual payload. -/
structure HubMessageEvent where
  origin : String
  data : HubInData
deriving DecidableEq, Repr

/-- The shared origin normalization line: `postMessage` reports the string
`"null"` as the origin of a `file://` sender, which both hub and client remap
to the synthetic token `file://`. -/
def normalizeOrigin (origin : String) : String :=
  if origin == "null" then "file://" else origin

/-- The error message of the invalid-method branch of `_onListener`. -/
def invalidMethodMessage (method : String) : String :=
  "Invalid method " ++ method ++ ", allowed methods are set, get, del, getKeys, clear"

/-- `CrossStorageHub._response`: JSON-encode `{id, method, error, result}` and
post it to the parent window, with target-origin `"*"` when the normalized
sender origin is the synthetic `file://` token. -/
def hubResponse (origin id method : String) (error : Option String)
    (result : ResultVal) : PostedMessage :=
  { dest := .parent
    data := .response id method error result
    targetOrigin := if origin == "file://" then "*" else origin }

/-- The hub's state after `_init`. -/
structure CrossStorageHub where
  available : Bool
  permissions : List CrossStoragePermission
  watchKeys : WatchSpec
  messageListener : Bool
  storageListener : Bool

/-- `CrossStorageHub._onListener`: normalize the origin, answer polls with a
ready frame (note: addressed to the raw `message.origin`), drop ready frames
and malformed payloads, reply with an error for unknown methods or missing
permission, otherwise execute the operation and reply with its result. -/
def hubOnListener (hub : CrossStorageHub) (st : Storage) (message : HubMessageEvent) :
    Storage × List PostedMessage :=
  let origin := normalizeOrigin message.origin
  match message.data with
  | .poll => (st, [{ dest := .parent, data := .ready, targetOrigin := message.origin }])
  | .ready => (st, [])
  | .malformed => (st, [])
  | .request r =>
    match requestAction r with
    | none =>
      (st, [hubResponse origin (reqId r) (reqMethodName r)
        (some (invalidMethodMessage (reqMethodName r))) .null])
    | some method =>
      if !permitted hub.permissions origin method then
        (st, [hubResponse origin (reqId r) (reqMethodName r)
          (some ("Invalid permissions for " ++ reqMethodName r)) .null])
      else
        let executed := executeRequest st r
        (executed.1, [hubResponse origin (reqId r) (reqMethodName r) none executed.2])

/-- A `StorageEvent` as delivered to `_onStorage`: whether
`event.storageArea === storage`, the changed key (`none` for the `null` a
bulk `clear()` reports), and the old/new values the event also carries. -/
structure StorageEvent where
  sameArea : Bool
  key : Option String
  oldValue : Option String
  newValue : Option String
deriving DecidableEq, Repr

/-- `CrossStorageHub._onStorage`: ignore foreign storage areas; for a falsy
key (the `null` of a bulk clear — and, by JavaScript truthiness, also the
empty-string key) broadcast the wildcard change frame; drop keys outside a
specific watch list; otherwise broadcast a change frame carrying only the
key. -/
def hubOnStorage (hub : CrossStorageHub) (event : StorageEvent) : List PostedMessage :=
  if !event.sameArea then []
  else
    match event.key with
    | none => [{ dest := .parent, data := .change none, targetOrigin := "*" }]
    | some k =>
      if k == "" then [{ dest := .parent, data := .change none, targetOrigin := "*" }]
      else
        match hub.watchKeys with
        | .keys ks =>
          if !ks.contains k then []
          else [{ dest := .parent, data := .change (some k), targetOrigin := "*" }]
        | .flag _ => [{ dest := .parent, data := .change (some k), targetOrigin := "*" }]

/-- `CrossStorageHub._init`: when storage is unavailable post the unavailable
frame and stop; otherwise record the permissions, attach the message
listener, post the ready frame, and — when the `keys` argument is truthy
(`if (keys)`, so any array, even empty) — record it and attach the storage
listener. -/
def hubInit (available : Bool) (permissions : List CrossStoragePermission)
    (watch : Option WatchSpec) : CrossStorageHub × List PostedMessage :=
  let hub0 : CrossStorageHub :=
    { available := available, permissions := [], watchKeys := .flag false,
      messageListener := false, storageListener := false }
  if !available then
    (hub0, [{ dest := .parent, data := .unavailable, targetOrigin := "*" }])
  else
    let hub1 := { hub0 with permissions := permissions, messageListener := true }
    if watchTruthy watch then
      ({ hub1 with watchKeys := watch.getD (.flag false), storageListener := true },
       [{ dest := .parent, data := .ready, targetOrigin := "*" }])
    else
      (hub1, [{ dest := .parent, data := .ready, targetOrigin := "*" }])

/-! ### Client model

`CrossStorageClient` from the client source.  The DOM document is modelled as
the list of element ids it contains (the only elements the client touches are
frames looked up and removed by id).  Promise settlements, timer creation and
clearing, `postMessage` calls to the hub and watcher invocations are emitted
as explicit effect values; pending timers are identified by the order of
their creation (`timers` counts `setTimeout` calls). -/

/-- The DOM document: ids of the elements present, in tree order
(`getElementById` returns the first occurrence). -/
abbrev Document := List String

/-- `CrossStorageClientOptions` from `types.ts`. -/
structure ClientOptions where
  frameId : Option String := none
  timeout : Option Nat := none
deriving DecidableEq, Repr

/-- One entry of the client's `_requests` map: the request id it is keyed by,
plus the values the stored callback and its timeout closure captured. -/
structure PendingRequest where
  id : String
  timerId : Nat
  method : String
deriving DecidableEq, Repr

/-- One entry of the client's `_connects` array: the callback pushed by
`connect()`, identified by the timeout timer it captured. -/
structure ConnectEntry where
  timerId : Nat
deriving DecidableEq, Repr

/-- The mutable fields of a `CrossStorageClient` instance. -/
structure ClientState where
  id : String
  url : String
  origin : String
  options : ClientOptions
  connected : Bool
  closed : Bool
  count : Nat
  frame : Option String
  requests : List PendingRequest
  connects : List ConnectEntry
  watchers : List Nat
  listenerAttached : Bool
  timers : Nat
deriving DecidableEq, Repr

/-- The `frameId` getter: `options.frameId ?? ` the id derived from the
client's uuid. -/
def clientFrameId (s : ClientState) : String :=
  s.options.frameId.getD ("cross-storage-client-" ++ s.id)

/-- The `timeout` getter: `options.timeout ?? 30_000`. -/
def clientTimeout (s : ClientState) : Nat :=
  s.options.timeout.getD 30000

/-- The `targetOrigin` getter: `"*"` when the hub origin is the synthetic
`file://` token. -/
def clientTargetOrigin (s : ClientState) : String :=
  if s.origin == "file://" then "*" else s.origin

/-- The `CrossStorageClient` constructor.  `id` stands for the generated
uuid and `origin` for `new URL(url).origin`, both platform collaborators.
The message listener is attached; `options.frameId` is looked up in the
document and, when absent (or no id was supplied), `_createFrame` appends a
new frame whose element id is the `frameId` getter's value. -/
def newClient (id url origin : String) (options : ClientOptions) (doc : Document) :
    ClientState × Document :=
  let s : ClientState :=
    { id := id, url := url, origin := origin, options := options,
      connected := false, closed := false, count := 0, frame := none,
      requests := [], connects := [], watchers := [],
      listenerAttached := true, timers := 0 }
  match options.frameId with
  | some fid =>
    if (doc : List String).contains fid then ({ s with frame := some fid }, doc)
    else ({ s with frame := some (clientFrameId s) },
          (doc : List String) ++ [clientFrameId s])
  | none =>
    ({ s with frame := some (clientFrameId s) },
     (doc : List String) ++ [clientFrameId s])

/-- `CrossStorageClient.close`: remove the element `getElementById(frameId)`
finds, if any; detach the message listener; mark the client closed and
disconnected. -/
def clientClose (s : ClientState) (doc : Document) : ClientState × Document :=
  let fid := clientFrameId s
  let doc' := if (doc : List String).contains fid
    then (doc : List String).erase fid else doc
  ({ s with listenerAttached := false, closed := true, connected := false }, doc')

/-- How a settled promise concluded. -/
inductive ClientOutcome
  | resolved (result : ResultVal)
  | rejected (err : String)
deriving DecidableEq, Repr

/-- Observable actions of the client: timer management, immediate promise
settlement (`Promise.resolve` / `Promise.reject` and the timeout closures'
direct `reject` calls), runs of stored `_connects` callbacks and `_requests`
callbacks, watcher invocations, and `postMessage` calls to the hub window. -/
inductive ClientEffect
  | setTimer (t ms : Nat)
  | clearTimer (t : Nat)
  | resolveNow
  | rejectNow (err : String)
  | connectSettled (timerId : Nat) (err : Option String)
  | requestSettled (id : String) (outcome : ClientOutcome)
  | watcherCalled (w : Nat) (key : Option String)
  | postRequest (id method targetOrigin : String)
  | postPoll (targetOrigin : String)
deriving DecidableEq, Repr

/-- Run every stored `_connects` callback: each clears its captured timeout
and settles its promise with the given error (or success). -/
def runConnectCallbacks (connects : List ConnectEntry) (err : Option String) :
    List ClientEffect :=
  connects.foldr
    (fun e acc => ClientEffect.clearTimer e.timerId :: .connectSettled e.timerId err :: acc) []

/-- `CrossStorageClient.connect`: immediately resolve when connected,
immediately reject when closed, otherwise start a timeout timer and push a
callback (capturing that timer) onto `_connects`. -/
def clientConnect (s : ClientState) : ClientState × List ClientEffect :=
  if s.connected then (s, [.resolveNow])
  else if s.closed then (s, [.rejectNow "CrossStorageClient has been closed"])
  else
    let t := s.timers
    ({ s with timers := t + 1, connects := s.connects ++ [{ timerId := t }] },
     [.setTimer t (clientTimeout s)])

/-- The timeout closure `connect()` registers: when it fires it only rejects
the promise — it neither clears the timer (it has fired) nor removes the
`_connects` entry. -/
def connectTimeoutFires (s : ClientState) : ClientState × List ClientEffect :=
  (s, [.rejectNow ("CrossStorageClient timed out after "
        ++ toString (clientTimeout s) ++ "ms")])

/-- `CrossStorageClient.watch`: push the callback (identified by its function
identity) onto `_watchers`. -/
def clientWatch (s : ClientState) (w : Nat) : ClientState :=
  { s with watchers := s.watchers ++ [w] }

/-- The body of the unsubscribe closure `watch` returns:
`indexOf(watcher)`, and `splice` it out when found — i.e. remove the first
occurrence of the callback, a no-op when it does not occur. -/
def unwatch (w : Nat) (ws : List Nat) : List Nat :=
  match ws with
  | [] => []
  | x :: rest => if x == w then rest else x :: unwatch w rest

/-- One invocation of the unsubscribe closure, at the state level. -/
def runUnsubscribe (s : ClientState) (w : Nat) : ClientState :=
  { s with watchers := unwatch w s.watchers }

/-- `CrossStorageClient._request`: reject at once when closed or not
connected; otherwise build the id from the incremented counter, start the
timeout timer, reject at once (clearing the timer) when the hub window is
missing, else store the response callback and post the JSON request to the
hub with the client's target-origin. -/
def clientRequest (s : ClientState) (method : String) (hubAvailable : Bool) :
    ClientState × List ClientEffect :=
  if s.closed then (s, [.rejectNow "CrossStorageClient has been closed"])
  else if !s.connected then (s, [.rejectNow "CrossStorageClient is not connected"])
  else
    let count := s.count + 1
    let rid := s.id ++ ":" ++ toString count
    let t := s.timers
    if !hubAvailable then
      ({ s with count := count, timers := t + 1 },
       [.setTimer t (clientTimeout s), .clearTimer t,
        .rejectNow "CrossStorageClient hub is not available"])
    else
      let entry : PendingRequest := { id := rid, timerId := t, method := method }
      ({ s with count := count, timers := t + 1, requests := s.requests ++ [entry] },
       [.setTimer t (clientTimeout s),
        .postRequest rid method (clientTargetOrigin s)])

/-- The per-request timeout closure: when it fires, return unless the entry
is still in `_requests`; otherwise delete the entry and reject with the
timeout error naming the method. -/
def requestTimeoutFires (s : ClientState) (rid : String) :
    ClientState × List ClientEffect :=
  match s.requests.find? (fun e => e.id == rid) with
  | none => (s, [])
  | some e =>
    ({ s with requests := s.requests.filter (fun p => p.id != rid) },
     [.requestSettled rid (.rejected ("Timeout: cross-storage:" ++ e.method
        ++ " request timed out after " ++ toString (clientTimeout s) ++ "ms"))])

/-- The payload of an inbound client message: the empty (falsy) string, one
of the control frames, a change frame carrying its suffix, a parseable JSON
response, or any other text that fails `JSON.parse` (and does not carry the
`cross-storage:` prefix). -/
inductive ClientInData
  | empty
  | unavailable
  | ready
  | poll
  | change (key : String)
  | response (id : String) (error : Option String) (result : ResultVal)
  | badJson
deriving DecidableEq, Repr

/-- Truthiness of the payload string (`!messageData`). -/
def dataIsFalsy : ClientInData → Bool
  | .empty => true
  | _ => false

/-- `messageData.startsWith('cross-storage:')`: true exactly for the four
control frames. -/
def hasProtocolPrefix : ClientInData → Bool
  | .unavailable => true
  | .ready => true
  | .poll => true
  | .change _ => true
  | _ => false

/-- An inbound `MessageEvent` as the client sees it. -/
structure ClientMessageEvent where
  origin : String
  data : ClientInData
deriving DecidableEq, Repr

/-- The error the client reports when the hub signals unavailability. -/
def hubUnavailableError : String :=
  "CrossStorageHub unavailable, check if localStorage is enabled in the hub domain"

/-- `CrossStorageClient._onListener`: drop messages when closed or falsy and
messages from the wrong (normalized) origin; on the unavailable frame close
and run every `_connects` callback with an error; on any prefixed frame while
unconnected become connected, run and clear the `_connects` callbacks; on a
change frame invoke every watcher with the decoded key (`none` for the `*`
wildcard); drop the ready frame; otherwise treat the payload as a JSON
response, drop it when unparseable or its id is falsy or unknown, else run
the stored request callback (clear its timer, delete the entry, settle). -/
def clientOnListener (s : ClientState) (doc : Document) (msg : ClientMessageEvent) :
    ClientState × Document × List ClientEffect :=
  if s.closed || dataIsFalsy msg.data then (s, doc, [])
  else
    let origin := normalizeOrigin msg.origin
    if origin != s.origin then (s, doc, [])
    else if msg.data == ClientInData.unavailable then
      let closedPair := clientClose s doc
      (closedPair.1, closedPair.2,
       if s.connects.isEmpty then []
       else runConnectCallbacks s.connects (some hubUnavailableError))
    else
      let connectStep : ClientState × List ClientEffect :=
        if hasProtocolPrefix msg.data && !s.connected then
          ({ s with connected := true, connects := [] },
           if s.connects.isEmpty then [] else runConnectCallbacks s.connects none)
        else (s, [])
      let s1 := connectStep.1
      let changeEffects : List ClientEffect :=
        match msg.data with
        | .change key =>
          if s1.watchers.isEmpty then []
          else s1.watchers.map
            (fun w => .watcherCalled w (if key == "*" then none else some key))
        | _ => []
      if msg.data == ClientInData.ready then (s1, doc, connectStep.2 ++ changeEffects)
      else
        match msg.data with
        | .response rid err result =>
          if rid == "" then (s1, doc, connectStep.2 ++ changeEffects)
          else
            match s1.requests.find? (fun e => e.id == rid) with
            | none => (s1, doc, connectStep.2 ++ changeEffects)
            | some e =>
              ({ s1 with requests := s1.requests.filter (fun p => p.id != rid) },
               doc,
               connectStep.2 ++ changeEffects ++
                 [.clearTimer e.timerId,
                  .requestSettled rid
                    (match err with
                     | some m => .rejected m
                     | none => .resolved result)])
        | _ => (s1, doc, connectStep.2 ++ changeEffects)

/-! ### Helper lemmas -/

theorem permissionEntryGrants_eq (origin : String) (m : CrossStorageAction)
    (e : CrossStoragePermission) :
    permissionEntryGrants origin m e =
      (matchesOrigin e.origin origin && allowsAction e.allow m) := by
  unfold permissionEntryGrants
  cases h : matchesOrigin e.origin origin <;> simp [h]

theorem permitted_eq_false_of_excluded (ps : List CrossStoragePermission)
    (origin : String) (m : CrossStorageAction)
    (h : ∀ e ∈ ps, matchesOrigin e.origin origin = true → allowsAction e.allow m = false) :
    permitted ps origin m = false := by
  unfold permitted
  rw [List.any_eq_false]
  intro e he
  rw [permissionEntryGrants_eq]
  cases hm : matchesOrigin e.origin origin
  · simp
  · simp [h e he hm]

theorem unwatch_eq_erase (w : Nat) (ws : List Nat) : unwatch w ws = ws.erase w := by
  induction ws with
  | nil => rfl
  | cons x rest ih => simp only [unwatch, List.erase_cons, ih]

/-! ### Claims -/

/-- C1 counterexample: with a first rule for `https://a.example` whose allow
set is empty and a second rule for the same origin allowing `"*"`, the hub
permits a `get` (and answers it with a result, not an error), while the
claim's first-match-wins reading — formalized by `permittedFirstMatch` —
would deny it. -/
theorem permission_first_match_cex :
    permitted
        [{ origin := .exact "https://a.example", allow := .list [] },
         { origin := .exact "https://a.example", allow := .star }]
        "https://a.example" .get = true ∧
    permittedFirstMatch
        [{ origin := .exact "https://a.example", allow := .list [] },
         { origin := .exact "https://a.example", allow := .star }]
        "https://a.example" .get = false ∧
    (hubOnListener
        { available := true,
          permissions :=
            [{ origin := .exact "https://a.example", allow := .list [] },
             { origin := .exact "https://a.example", allow := .star }],
          watchKeys := .flag false, messageListener := true, storageListener := false }
        [] ⟨"https://a.example", .request (.rget "1" (.one "k"))⟩).2 =
      [{ dest := .parent, data := .response "1" "get" none (.single none),
         targetOrigin := "https://a.example" }] :=
  ⟨rfl, rfl, rfl⟩

/-- C1 amended: permission evaluation is any-match (a logical OR over the
rules, via `Array.prototype.some`): a request is allowed iff some rule's
origin matcher matches the sender origin and that rule's allow set is `"*"`
or contains the action.  A matching rule whose allow set excludes the action
does not short-circuit later rules, so the scenario of a first matching rule
with an empty allow set followed by a `"*"` rule for the same origin is
allowed, not denied. -/
theorem permitted_iff_any_match (ps : List CrossStoragePermission)
    (origin : String) (m : CrossStorageAction) :
    permitted ps origin m = true ↔
      ∃ e ∈ ps, matchesOrigin e.origin origin = true ∧ allowsAction e.allow m = true := by
  unfold permitted
  rw [List.any_eq_true]
  constructor
  · rintro ⟨e, he, hg⟩
    rw [permissionEntryGrants_eq, Bool.and_eq_true] at hg
    exact ⟨e, he, hg⟩
  · rintro ⟨e, he, h1, h2⟩
    exact ⟨e, he, by rw [permissionEntryGrants_eq, h1, h2, Bool.and_self]⟩

/-- C6: a request whose (normalized) sender origin and action match no
permission rule — every rule either misses the origin or excludes the
action — is answered with exactly one error response naming the method, and
the storage state after handling it equals the state before it. -/
theorem denied_request_error_no_mutation
    (hub : CrossStorageHub) (st : Storage) (senderOrigin : String)
    (r : HubRequestData) (m : CrossStorageAction)
    (hm : requestAction r = some m)
    (hdeny : ∀ e ∈ hub.permissions,
      matchesOrigin e.origin (normalizeOrigin senderOrigin) = true →
      allowsAction e.allow m = false) :
    (hubOnListener hub st ⟨senderOrigin, .request r⟩).1 = st ∧
    (hubOnListener hub st ⟨senderOrigin, .request r⟩).2 =
      [hubResponse (normalizeOrigin senderOrigin) (reqId r) (reqMethodName r)
        (some ("Invalid permissions for " ++ reqMethodName r)) .null] := by
  have hperm := permitted_eq_false_of_excluded hub.permissions
    (normalizeOrigin senderOrigin) m hdeny
  simp [hubOnListener, hm, hperm]

/-- C6 witness: a `set` request from `https://a.example` against a hub whose
only rule is for `https://b.example` is denied and leaves the storage
`[("a", "1")]` untouched. -/
theorem denied_request_error_no_mutation_witness :
    (hubOnListener
        { available := true,
          permissions := [{ origin := .exact "https://b.example", allow := .star }],
          watchKeys := .flag false, messageListener := true, storageListener := false }
        [("a", "1")] ⟨"https://a.example", .request (.rset "9" "k" "v")⟩).1 = [("a", "1")] ∧
    (hubOnListener
        { available := true,
          permissions := [{ origin := .exact "https://b.example", allow := .star }],
          watchKeys := .flag false, messageListener := true, storageListener := false }
        [("a", "1")] ⟨"https://a.example", .request (.rset "9" "k" "v")⟩).2 =
      [hubResponse (normalizeOrigin "https://a.example") "9" "set"
        (some ("Invalid permissions for " ++ "set")) .null] :=
  denied_request_error_no_mutation _ [("a", "1")] "https://a.example"
    (.rset "9" "k" "v") .set rfl (by decide)

/-- C7: over the hub's storage operations, `set k v` followed by `get k`
yields the stored string `v`, and `del k` followed by `get k` yields the
null indicator. -/
theorem set_get_del_roundtrip (st : Storage) (k v : String) :
    hubGet (setItem st k v) (.one k) = .single (some v) ∧
    hubGet (hubDel st (.one k)) (.one k) = .single none := by
  constructor
  · simp [hubGet, getItem_setItem_self]
  · simp [hubGet, hubDel, getItem_removeItem_self]

/-- C9: every message the hub emits — the unavailable/ready frames of
`_init`, the ready reply to a poll, every request's response, and every
change notification — is posted to the hub frame's parent window; the hub
never addresses the triggering message's source window. -/
theorem hub_emits_only_to_parent (av : Bool) (ps : List CrossStoragePermission)
    (w : Option WatchSpec) (hub : CrossStorageHub) (st : Storage)
    (msg : HubMessageEvent) (ev : StorageEvent) :
    (hubInit av ps w).2.all (fun pm => pm.dest == Dest.parent) = true ∧
    (hubOnListener hub st msg).2.all (fun pm => pm.dest == Dest.parent) = true ∧
    (hubOnStorage hub ev).all (fun pm => pm.dest == Dest.parent) = true := by
  refine ⟨?_, ?_, ?_⟩
  · unfold hubInit
    split
    · simp
    · split <;> simp
  · rcases msg with ⟨o, d⟩
    cases d with
    | poll => simp [hubOnListener]
    | ready => simp [hubOnListener]
    | malformed => simp [hubOnListener]
    | request r =>
      simp only [hubOnListener]
      cases hra : requestAction r with
      | none => simp [hubResponse]
      | some m =>
        by_cases hp : permitted hub.permissions (normalizeOrigin o) m = true
        · simp [hp, hubResponse]
        · rw [Bool.not_eq_true] at hp
          simp [hp, hubResponse]
  · rcases ev with ⟨sa, k, ov, nv⟩
    cases sa with
    | false => simp [hubOnStorage]
    | true =>
      cases k with
      | none => simp [hubOnStorage]
      | some s =>
        simp only [hubOnStorage]
        split
        · simp
        · cases hub.watchKeys <;> simp <;> split <;> simp

/-- C5 counterexample: with the specific watch set `["a"]`, a storage
mutation whose key is the empty string — a key that is not a member of the
watch set — still broadcasts a (wildcard) change notification, because the
source's falsy-key test `if (!key)` is true for the empty string, not only
for the null key of a bulk clear. -/
theorem storage_event_watch_miss_cex :
    (["a"] : List String).contains "" = false ∧
    hubOnStorage
        { available := true, permissions := [], watchKeys := .keys ["a"],
          messageListener := true, storageListener := true }
        { sameArea := true, key := some "", oldValue := none, newValue := some "x" } ≠
      [] := by
  constructor
  · decide
  · decide

/-- C5 amended: for a storage mutation event from the hub's storage area,
with a specific watch-key set: a null key *or the empty-string key* broadcasts
exactly one wildcard change notification; a nonempty key outside the watch
set produces no notification; a nonempty key in the watch set broadcasts
exactly one notification carrying only that key — and the event's old/new
values never influence or appear in the notification. -/
theorem storage_change_notification
    (hub : CrossStorageHub) (ks : List String) (ov nv : Option String)
    (hw : hub.watchKeys = .keys ks) :
    hubOnStorage hub { sameArea := true, key := none, oldValue := ov, newValue := nv } =
      [{ dest := .parent, data := .change none, targetOrigin := "*" }] ∧
    hubOnStorage hub { sameArea := true, key := some "", oldValue := ov, newValue := nv } =
      [{ dest := .parent, data := .change none, targetOrigin := "*" }] ∧
    (∀ k, k ≠ "" → ks.contains k = false →
      hubOnStorage hub { sameArea := true, key := some k, oldValue := ov, newValue := nv } =
        []) ∧
    (∀ k, k ≠ "" → ks.contains k = true →
      hubOnStorage hub { sameArea := true, key := some k, oldValue := ov, newValue := nv } =
        [{ dest := .parent, data := .change (some k), targetOrigin := "*" }]) := by
  refine ⟨by simp [hubOnStorage], by simp [hubOnStorage], ?_, ?_⟩
  · intro k hk hcon
    have hkb : (k == "") = false := by rw [beq_eq_false_iff_ne]; exact hk
    simp at hcon
    simp [hubOnStorage, hkb, hw, hcon]
  · intro k hk hcon
    have hkb : (k == "") = false := by rw [beq_eq_false_iff_ne]; exact hk
    simp at hcon
    simp [hubOnStorage, hkb, hw, hcon]

/-- C5 witness: with watch set `["tok"]`, a foreign-document mutation of
`tok` produces exactly one notification carrying `tok`. -/
theorem storage_change_notification_witness :
    hubOnStorage
        { available := true, permissions := [], watchKeys := .keys ["tok"],
          messageListener := true, storageListener := true }
        { sameArea := true, key := some "tok", oldValue := none, newValue := some "x" } =
      [{ dest := .parent, data := .change (some "tok"), targetOrigin := "*" }] :=
  (storage_change_notification
    { available := true, permissions := [], watchKeys := .keys ["tok"],
      messageListener := true, storageListener := true }
    ["tok"] none (some "x") rfl).2.2.2 "tok" (by decide) (by decide)

/-- C10 counterexample: initializing with `watch: []` does register the
storage observer (the empty array is truthy), but it is not true that a keyed
mutation never produces a notification: the empty-string key broadcasts a
wildcard notification, because the falsy-key test catches it before the
(always-failing) membership test. -/
theorem empty_watch_array_cex :
    (hubInit true [] (some (.keys []))).1.storageListener = true ∧
    hubOnStorage (hubInit true [] (some (.keys []))).1
        { sameArea := true, key := some "", oldValue := none, newValue := some "x" } ≠
      [] := by
  constructor
  · decide
  · decide

/-- C10 amended: initializing the hub with `watch: []` registers the storage
observer (the array's emptiness is not checked); a bulk clear — and the
empty-string key — then broadcasts one wildcard change notification, while a
mutation with a nonempty key never produces a notification, since every
nonempty key fails the membership test against the empty set. -/
theorem empty_watch_array_behavior (ps : List CrossStoragePermission)
    (ov nv : Option String) :
    (hubInit true ps (some (.keys []))).1.storageListener = true ∧
    hubOnStorage (hubInit true ps (some (.keys []))).1
        { sameArea := true, key := none, oldValue := ov, newValue := nv } =
      [{ dest := .parent, data := .change none, targetOrigin := "*" }] ∧
    (∀ k, k ≠ "" →
      hubOnStorage (hubInit true ps (some (.keys []))).1
          { sameArea := true, key := some k, oldValue := ov, newValue := nv } = []) ∧
    hubOnStorage (hubInit true ps (some (.keys []))).1
        { sameArea := true, key := some "", oldValue := ov, newValue := nv } =
      [{ dest := .parent, data := .change none, targetOrigin := "*" }] := by
  have hinit : (hubInit true ps (some (.keys []))).1 =
      { available := true, permissions := ps, watchKeys := .keys [],
        messageListener := true, storageListener := true } := rfl
  rw [hinit]
  refine ⟨rfl, by simp [hubOnStorage], ?_, by simp [hubOnStorage]⟩
  intro k hk
  have hkb : (k == "") = false := by rw [beq_eq_false_iff_ne]; exact hk
  simp [hubOnStorage, hkb]

/-- C10 witness: with `watch: []`, the observer is registered, a bulk clear
broadcasts the wildcard, and a mutation of the nonempty key `"x"` produces
nothing. -/
theorem empty_watch_array_behavior_witness :
    (hubInit true [] (some (.keys []))).1.storageListener = true ∧
    hubOnStorage (hubInit true [] (some (.keys []))).1
        { sameArea := true, key := some "x", oldValue := none, newValue := some "1" } =
      [] :=
  ⟨(empty_watch_array_behavior [] none (some "1")).1,
   (empty_watch_array_behavior [] none (some "1")).2.2.1 "x" (by decide)⟩

/-- C3: the hub maps the transport-reported sender origin `"null"` to the
synthetic token `file://` and uses it for permission matching and for the
target-origin of a request's response (there correctly widened to `"*"`), but
the ready reply to a poll signal is addressed to the raw `message.origin` —
the literal string `"null"`, not the wildcard — contradicting the source's
own comment that `postMessage` requires target-origin `"*"` for `file://`. -/
theorem null_origin_poll_reply_bug :
    (hubOnListener
        { available := true,
          permissions := [{ origin := .exact "file://", allow := .star }],
          watchKeys := .flag false, messageListener := true, storageListener := false }
        [] ⟨"null", .poll⟩).2 =
      [{ dest := .parent, data := .ready, targetOrigin := "null" }] ∧
    ("null" : String) ≠ "*" ∧
    normalizeOrigin "null" = "file://" ∧
    (hubOnListener
        { available := true,
          permissions := [{ origin := .exact "file://", allow := .star }],
          watchKeys := .flag false, messageListener := true, storageListener := false }
        [] ⟨"null", .request (.rgetKeys "1")⟩).2 =
      [{ dest := .parent, data := .response "1" "getKeys" none (.keys []),
         targetOrigin := "*" }] := by
  refine ⟨rfl, by decide, rfl, rfl⟩

/-- A document holding one externally created frame element. -/
def externalFrameDoc : Document := ["ext-frame"]

/-- A client constructed over that document with `options.frameId`
pointing at the external frame. -/
def externalFrameClient : ClientState :=
  (newClient "c0" "https://hub.example/hub.html" "https://hub.example"
    { frameId := some "ext-frame", timeout := none } externalFrameDoc).1

/-- C2 counterexample: for a client constructed with an externally supplied
frame id, `close()` does remove that frame from the document (the frame found
by `getElementById(this.frameId)` is removed unconditionally). -/
theorem close_removes_external_frame_cex :
    externalFrameClient.options.frameId = some "ext-frame" ∧
    (externalFrameDoc : List String).contains "ext-frame" = true ∧
    (clientClose externalFrameClient externalFrameDoc).2 = [] := by
  decide

/-- C2 amended: `close()` detaches the message listener, marks the client
closed and disconnected, and removes the first document element whose id
equals the client's `frameId` whenever one exists — including a frame the
client did not create but was given via `options.frameId`. -/
theorem close_detaches_and_removes_frame (s : ClientState) (fid : String)
    (doc : Document) (hfid : s.options.frameId = some fid) :
    (clientClose s doc).1.closed = true ∧
    (clientClose s doc).1.listenerAttached = false ∧
    (clientClose s doc).1.connected = false ∧
    (clientClose s doc).2 =
      (if (doc : List String).contains fid then (doc : List String).erase fid
       else doc) := by
  have h : clientFrameId s = fid := by simp [clientFrameId, hfid]
  simp [clientClose, h]

/-- C2 witness: closing the client owning the external frame marks it closed,
detaches the listener, and erases the frame. -/
theorem close_detaches_and_removes_frame_witness :
    (clientClose externalFrameClient externalFrameDoc).1.closed = true ∧
    (clientClose externalFrameClient externalFrameDoc).1.listenerAttached = false ∧
    (clientClose externalFrameClient externalFrameDoc).1.connected = false ∧
    (clientClose externalFrameClient externalFrameDoc).2 =
      (if (externalFrameDoc : List String).contains "ext-frame"
       then (externalFrameDoc : List String).erase "ext-frame"
       else externalFrameDoc) :=
  close_detaches_and_removes_frame externalFrameClient "ext-frame"
    externalFrameDoc (by decide)

/-- A client that registered the same watcher callback twice. -/
def duplicateWatcherClient : ClientState :=
  clientWatch (clientWatch
    (newClient "c8" "https://h.example/hub.html" "https://h.example" {} []).1 7) 7

/-- C8 counterexample: with the same callback registered twice, the second
invocation of the unsubscribe function is not a no-op — it removes the
remaining occurrence of the callback. -/
theorem unsubscribe_repeat_cex :
    duplicateWatcherClient.watchers = [7, 7] ∧
    (runUnsubscribe duplicateWatcherClient 7).watchers = [7] ∧
    (runUnsubscribe (runUnsubscribe duplicateWatcherClient 7) 7).watchers = [] ∧
    runUnsubscribe (runUnsubscribe duplicateWatcherClient 7) 7 ≠
      runUnsubscribe duplicateWatcherClient 7 := by
  decide

/-- C8 amended: one invocation of the unsubscribe function removes exactly
the first occurrence of its callback — that callback's registration count
drops by one and every other callback's count is unchanged — and when the
callback is registered at most once (in particular whenever no callback is
registered twice), every invocation after the first is a no-op. -/
theorem unsubscribe_removes_first_occurrence (w : Nat) :
    (∀ ws : List Nat, (unwatch w ws).count w = ws.count w - 1) ∧
    (∀ ws : List Nat, ∀ v, v ≠ w → (unwatch w ws).count v = ws.count v) ∧
    (∀ s : ClientState, s.watchers.count w ≤ 1 →
      runUnsubscribe (runUnsubscribe s w) w = runUnsubscribe s w) := by
  refine ⟨?_, ?_, ?_⟩
  · intro ws
    rw [unwatch_eq_erase, List.count_erase_self]
  · intro ws v hv
    rw [unwatch_eq_erase, List.count_erase_of_ne hv]
  · intro s hle
    unfold runUnsubscribe
    congr 1
    rw [unwatch_eq_erase, unwatch_eq_erase]
    apply List.erase_of_not_mem
    rw [← List.count_eq_zero, List.count_erase_self]
    omega

/-- C8 witness: exact removal of the first occurrence of `3` from
`[1, 3, 2]`, preservation of the count of `2`, and idempotence of the
unsubscribe function on a client that registered `3` once. -/
theorem unsubscribe_removes_first_occurrence_witness :
    (unwatch 3 [1, 3, 2]).count 3 = ([1, 3, 2] : List Nat).count 3 - 1 ∧
    (unwatch 3 [1, 3, 2]).count 2 = ([1, 3, 2] : List Nat).count 2 ∧
    runUnsubscribe (runUnsubscribe
        (clientWatch (newClient "c8b" "https://h.example/hub.html"
          "https://h.example" {} []).1 3) 3) 3 =
      runUnsubscribe
        (clientWatch (newClient "c8b" "https://h.example/hub.html"
          "https://h.example" {} []).1 3) 3 :=
  ⟨(unsubscribe_removes_first_occurrence 3).1 [1, 3, 2],
   (unsubscribe_removes_first_occurrence 3).2.1 [1, 3, 2] 2 (by decide),
   (unsubscribe_removes_first_occurrence 3).2.2 _ (by decide)⟩

/-- A client with one connect() caller pending (timer 0 running). -/
def connectPendingClient : ClientState :=
  (clientConnect
    (newClient "c4c" "https://h.example/hub.html" "https://h.example" {} []).1).1

/-- C4 counterexample: when a pending connect() caller's timeout fires, the
promise is rejected but the timer is not cleared and the `_connects` entry is
not removed — the rejection path leaves the pending entry dangling. -/
theorem connect_timeout_dangling_entry_cex :
    connectPendingClient.connects = [{ timerId := 0 }] ∧
    (connectTimeoutFires connectPendingClient).2 =
      [.rejectNow "CrossStorageClient timed out after 30000ms"] ∧
    (connectTimeoutFires connectPendingClient).1.connects = [{ timerId := 0 }] := by
  decide

/-- C4 amended: every rejection path of a *pending request* removes its timer
and map entry — after its timeout fires no entry with that id remains and the
promise is rejected with the timeout error naming the method; a timer firing
for an id no longer in the map does nothing; a Response for an id not in the
map invokes no handler and changes nothing; a Response for a pending id
clears that entry's timer, removes the entry and settles its promise.  For
pending connect() callers, however, the timeout rejection path does not
remove the pending entry: the `_connects` entry survives until a later
connection signal runs the stored callbacks. -/
theorem client_pending_entry_cleanup
    (s : ClientState) (doc : Document) (rid : String) (e : PendingRequest)
    (errv : Option String) (res : ResultVal) :
    ((requestTimeoutFires s rid).1.requests.all (fun p => p.id != rid) = true) ∧
    (s.requests.find? (fun p => p.id == rid) = some e →
      (requestTimeoutFires s rid).2 =
        [.requestSettled rid (.rejected ("Timeout: cross-storage:" ++ e.method
          ++ " request timed out after " ++ toString (clientTimeout s) ++ "ms"))]) ∧
    (s.requests.find? (fun p => p.id == rid) = none →
      requestTimeoutFires s rid = (s, [])) ∧
    (s.closed = false → (s.origin == "null") = false → rid ≠ "" →
      s.requests.find? (fun p => p.id == rid) = none →
      clientOnListener s doc ⟨s.origin, .response rid errv res⟩ = (s, doc, [])) ∧
    (s.closed = false → (s.origin == "null") = false → rid ≠ "" →
      s.requests.find? (fun p => p.id == rid) = some e →
      clientOnListener s doc ⟨s.origin, .response rid errv res⟩ =
        ({ s with requests := s.requests.filter (fun p => p.id != rid) }, doc,
         [.clearTimer e.timerId,
          .requestSettled rid (match errv with
            | some m => .rejected m
            | none => .resolved res)])) ∧
    ((connectTimeoutFires s).1.connects = s.connects) := by
  refine ⟨?_, ?_, ?_, ?_, ?_, rfl⟩
  · unfold requestTimeoutFires
    cases hf : s.requests.find? (fun p => p.id == rid) with
    | none =>
      simp only []
      rw [List.all_eq_true]
      intro p hp
      have := List.find?_eq_none.mp hf p hp
      simpa using this
    | some e' =>
      simp only []
      rw [List.all_eq_true]
      intro p hp
      exact (List.mem_filter.mp hp).2
  · intro hf
    simp [requestTimeoutFires, hf]
  · intro hf
    simp [requestTimeoutFires, hf]
  · intro hcl horg hrid hf
    have hridb : (rid == "") = false := by rw [beq_eq_false_iff_ne]; exact hrid
    simp [clientOnListener, dataIsFalsy, hasProtocolPrefix, normalizeOrigin,
      hcl, horg, hridb, hf]
  · intro hcl horg hrid hf
    have hridb : (rid == "") = false := by rw [beq_eq_false_iff_ne]; exact hrid
    simp [clientOnListener, dataIsFalsy, hasProtocolPrefix, normalizeOrigin,
      hcl, horg, hridb, hf]

/-- A client connected to the hub with one pending `get` request
(`id = "c4:1"`, timer 0). -/
def pendingRequestClient : ClientState :=
  (clientRequest
    { (newClient "c4" "https://h.example/hub.html" "https://h.example" {} []).1
        with connected := true } "get" true).1

/-- C4 witness: a Response for the pending id `c4:1` clears timer 0, removes
the entry, and resolves the promise with the result. -/
theorem client_pending_entry_cleanup_witness :
    clientOnListener pendingRequestClient []
        ⟨"https://h.example", .response "c4:1" none (.single (some "v"))⟩ =
      ({ pendingRequestClient with
          requests := pendingRequestClient.requests.filter (fun p => p.id != "c4:1") },
       [],
       [.clearTimer 0, .requestSettled "c4:1" (.resolved (.single (some "v")))]) :=
  (client_pending_entry_cleanup pendingRequestClient [] "c4:1"
    { id := "c4:1", timerId := 0, method := "get" } none
    (.single (some "v"))).2.2.2.2.1 (by decide) (by decide) (by decide) (by decide)

end CrossStorage
